import Mathlib

/-!
# Verification of the SOLID checkout demo (`refactor_solid.py`)

Shallow embedding of the checkout program: an `Order` data entity, the
`IPaymentProcessor` / `INotificationService` capability interfaces, the two
concrete payment processors (`CreditCardProcessor`, `QrisProcessor`), the
`EmailNotifier`, and the `CheckoutService` coordinator with its
`run_checkout` operation.

Methods of the Python program receive a mutable `Order` reference; we embed
each method as a function from the incoming order to the (possibly updated)
order it leaves behind, together with its return value and the log lines it
emits.  Whether a method mutates the order is then a provable statement
about its embedding, not an artifact of the types.  `run_checkout` is
embedded as a function returning the coordinator (unchanged references),
the final order, the boolean return value and a trace of observable events
(log lines and the strategy invocations with their arguments), so that
claims about invocation counts and ordering can be stated.
-/

namespace CheckoutSystem

/-- The `Order` dataclass (`refactor_solid.py` lines 12-16): customer name,
total price and a mutable status whose declared default is `"open"`.
Python's `float` price is modelled as `Rat`; the program never computes
with it. -/
structure Order where
  customer_name : String
  total_price : Rat
  status : String := "open"
deriving DecidableEq, Repr

/-- Constructing an `Order` without supplying a status, as the main program
does (`Order("Andi", 500000)`): the dataclass default `"open"` applies. -/
def Order.new (customer_name : String) (total_price : Rat) : Order :=
  { customer_name := customer_name, total_price := total_price }

/-- Result of a payment processor's `process` method: the order it leaves
behind, the boolean it returns, and the log lines it emits. -/
structure ProcResult where
  order : Order
  ok : Bool
  logs : List String
deriving DecidableEq, Repr

/-- Result of a notification service's `send` method: the order it leaves
behind and the log lines it emits (the method returns no value). -/
structure SendResult where
  order : Order
  logs : List String
deriving DecidableEq, Repr

/-- The `IPaymentProcessor` abstract contract (lines 19-22): one operation
`process(order) -> bool`. -/
structure IPaymentProcessor where
  process : Order → ProcResult

/-- The `INotificationService` abstract contract (lines 24-27): one
operation `send(order)`. -/
structure INotificationService where
  send : Order → SendResult

/-- `CreditCardProcessor.process` (lines 30-34): logs one line and returns
`True`; the order is left exactly as received. -/
def CreditCardProcessor.process (order : Order) : ProcResult :=
  { order := order, ok := true, logs := ["Payment: Memproses Kartu Kredit."] }

/-- `EmailNotifier.send` (lines 36-39): logs one line built from the
order's `customer_name`; the order is left exactly as received. -/
def EmailNotifier.send (order : Order) : SendResult :=
  { order := order
    logs := ["Notif: Mengirim email konfirmasi ke " ++ order.customer_name ++ "."] }

/-- `QrisProcessor.process` (lines 98-101, added after the coordinator to
demonstrate the open/closed property): logs one line and returns `True`;
the order is left exactly as received. -/
def QrisProcessor.process (order : Order) : ProcResult :=
  { order := order, ok := true, logs := ["Payment: Memproses QRIS."] }

/-- Observable events during `run_checkout`: a log line, an invocation of
the payment strategy's `process` with its argument, or an invocation of
the notifier's `send` with its argument. -/
inductive Event where
  | log (msg : String)
  | processCall (arg : Order)
  | sendCall (arg : Order)
deriving DecidableEq, Repr

/-- The arguments of the `send` invocations recorded in a trace, in
order. -/
def sendCalls (tr : List Event) : List Order :=
  tr.filterMap fun e =>
    match e with
    | Event.sendCall o => some o
    | _ => none

/-- The arguments of the `process` invocations recorded in a trace, in
order. -/
def processCalls (tr : List Event) : List Order :=
  tr.filterMap fun e =>
    match e with
    | Event.processCall o => some o
    | _ => none

/-- The `CheckoutService` coordinator (lines 42-56): its `__init__` stores
the injected payment processor and notifier. -/
structure CheckoutService where
  payment_processor : IPaymentProcessor
  notifier : INotificationService

/-- Outcome of one `run_checkout` call: the coordinator afterwards (the
method never assigns to `self`), the order afterwards, the boolean return
value, and the trace of observable events. -/
structure CheckoutResult where
  svc : CheckoutService
  order : Order
  ret : Bool
  trace : List Event

/-- The Python `pass` statement at the start of `run_checkout` (line 68):
`pass` is a no-op, leaving every piece of state as it is. -/
def passStmt {σ : Type} (s : σ) : σ := s

/-- `CheckoutService.run_checkout` (lines 58-82): the dead `pass`
statement, the banner log, the call to the payment strategy, and on a
truthy result the status mutation, the delegated notification, the success
log and `return True`; on a falsy result `return False`. -/
def CheckoutService.run_checkout (svc : CheckoutService) (order : Order) :
    CheckoutResult :=
  let order0 := passStmt order
  let tr0 : List Event :=
    [Event.log ("--- Memulai Checkout untuk " ++ order0.customer_name ++ " ---")]
  let pres := svc.payment_processor.process order0
  let tr1 := tr0 ++ [Event.processCall order0] ++ pres.logs.map Event.log
  if pres.ok then
    let order1 := { pres.order with status := "paid" }
    let sres := svc.notifier.send order1
    let tr2 := tr1 ++ [Event.sendCall order1] ++ sres.logs.map Event.log
      ++ [Event.log "Checkout Sukses. Transaksi selesai."]
    { svc := svc, order := sres.order, ret := true, trace := tr2 }
  else
    { svc := svc, order := pres.order, ret := false, trace := tr1 }

/-- `run_checkout` with the dead `pass` statement of line 68 removed,
otherwise identical line by line. -/
def CheckoutService.run_checkout_no_pass (svc : CheckoutService) (order : Order) :
    CheckoutResult :=
  let tr0 : List Event :=
    [Event.log ("--- Memulai Checkout untuk " ++ order.customer_name ++ " ---")]
  let pres := svc.payment_processor.process order
  let tr1 := tr0 ++ [Event.processCall order] ++ pres.logs.map Event.log
  if pres.ok then
    let order1 := { pres.order with status := "paid" }
    let sres := svc.notifier.send order1
    let tr2 := tr1 ++ [Event.sendCall order1] ++ sres.logs.map Event.log
      ++ [Event.log "Checkout Sukses. Transaksi selesai."]
    { svc := svc, order := sres.order, ret := true, trace := tr2 }
  else
    { svc := svc, order := pres.order, ret := false, trace := tr1 }

/-- Main-program wiring (line 87): `andi_order = Order("Andi", 500000)`. -/
def andi_order : Order := Order.new "Andi" 500000

/-- Main-program wiring (line 88): `email_service = EmailNotifier()`. -/
def email_service : INotificationService := ⟨EmailNotifier.send⟩

/-- Main-program wiring (line 91): `cc_processor = CreditCardProcessor()`. -/
def cc_processor : IPaymentProcessor := ⟨CreditCardProcessor.process⟩

/-- Main-program wiring (line 92): the coordinator injected with the
credit-card strategy and the email notifier. -/
def checkout_cc : CheckoutService := ⟨cc_processor, email_service⟩

/-- Main-program wiring (line 103): `budi_order = Order("Budi", 100000)`. -/
def budi_order : Order := Order.new "Budi" 100000

/-- Main-program wiring (line 104): `qris_processor = QrisProcessor()`. -/
def qris_processor : IPaymentProcessor := ⟨QrisProcessor.process⟩

/-- Main-program wiring (line 107): the coordinator injected with the QRIS
strategy and the email notifier. -/
def checkout_qris : CheckoutService := ⟨qris_processor, email_service⟩

/-- Modelled from the spec: Scenario C of §8 requires a payment strategy
that reports failure; the repository's source contains none, so this
always-failing strategy is taken from the spec's words ("a strategy that
reports failure").  It satisfies the §4.1 contract: it does not mutate the
order. -/
def failing_processor : IPaymentProcessor :=
  ⟨fun order => { order := order, ok := false, logs := [] }⟩

/-- Modelled from the spec: the coordinator of Scenario C, the failing
strategy injected together with the email notifier. -/
def checkout_fail : CheckoutService := ⟨failing_processor, email_service⟩

@[simp]
theorem sendCalls_nil : sendCalls [] = [] := rfl

@[simp]
theorem sendCalls_append (a b : List Event) :
    sendCalls (a ++ b) = sendCalls a ++ sendCalls b :=
  List.filterMap_append a b _

@[simp]
theorem sendCalls_cons_log (m : String) (t : List Event) :
    sendCalls (Event.log m :: t) = sendCalls t := rfl

@[simp]
theorem sendCalls_cons_processCall (o : Order) (t : List Event) :
    sendCalls (Event.processCall o :: t) = sendCalls t := rfl

@[simp]
theorem sendCalls_cons_sendCall (o : Order) (t : List Event) :
    sendCalls (Event.sendCall o :: t) = o :: sendCalls t := rfl

@[simp]
theorem sendCalls_map_log (l : List String) : sendCalls (l.map Event.log) = [] := by
  induction l with
  | nil => rfl
  | cons a t ih => simp [sendCalls]

@[simp]
theorem processCalls_nil : processCalls [] = [] := rfl

@[simp]
theorem processCalls_append (a b : List Event) :
    processCalls (a ++ b) = processCalls a ++ processCalls b :=
  List.filterMap_append a b _

@[simp]
theorem processCalls_cons_log (m : String) (t : List Event) :
    processCalls (Event.log m :: t) = processCalls t := rfl

@[simp]
theorem processCalls_cons_processCall (o : Order) (t : List Event) :
    processCalls (Event.processCall o :: t) = o :: processCalls t := rfl

@[simp]
theorem processCalls_cons_sendCall (o : Order) (t : List Event) :
    processCalls (Event.sendCall o :: t) = processCalls t := rfl

@[simp]
theorem processCalls_map_log (l : List String) :
    processCalls (l.map Event.log) = [] := by
  induction l with
  | nil => rfl
  | cons a t ih => simp [processCalls]

/-- C1: for every order with status `"open"` and every injected payment
strategy and notifier honouring the §4.1/§4.2 contract (they do not mutate
the order), if the strategy's `process` reports success then after
`run_checkout` the order's status is `"paid"`, the notifier's `send` was
invoked exactly once and with that same (now paid) order, and the return
value is `true` — for any implementation of the contract, the coordinator
unchanged. -/
theorem run_checkout_success_contract (svc : CheckoutService) (o : Order)
    (hopen : o.status = "open")
    (hp : ∀ x, (svc.payment_processor.process x).order = x)
    (hn : ∀ x, (svc.notifier.send x).order = x)
    (hsucc : (svc.payment_processor.process o).ok = true) :
    (svc.run_checkout o).order.status = "paid" ∧
    (svc.run_checkout o).ret = true ∧
    sendCalls (svc.run_checkout o).trace = [{ o with status := "paid" }] := by
  simp [CheckoutService.run_checkout, passStmt, hp, hn, hsucc]

/-- Witness for C1: the main program's credit-card coordinator on Andi's
order satisfies every hypothesis of `run_checkout_success_contract`, and
the conclusion holds there. -/
theorem run_checkout_success_contract_witness :
    (checkout_cc.run_checkout andi_order).order.status = "paid" ∧
    (checkout_cc.run_checkout andi_order).ret = true ∧
    sendCalls (checkout_cc.run_checkout andi_order).trace =
      [{ andi_order with status := "paid" }] :=
  run_checkout_success_contract checkout_cc andi_order rfl
    (fun _ => rfl) (fun _ => rfl) rfl

/-- C2: for every order with status `"open"` and every injected
contract-honouring payment strategy, if `process` reports failure then
after `run_checkout` the order is unchanged (status still `"open"`), the
notifier's `send` is never invoked, and the return value is `false`. -/
theorem run_checkout_failure_contract (svc : CheckoutService) (o : Order)
    (hopen : o.status = "open")
    (hp : ∀ x, (svc.payment_processor.process x).order = x)
    (hfail : (svc.payment_processor.process o).ok = false) :
    (svc.run_checkout o).order = o ∧
    (svc.run_checkout o).order.status = "open" ∧
    sendCalls (svc.run_checkout o).trace = [] ∧
    (svc.run_checkout o).ret = false := by
  simp [CheckoutService.run_checkout, passStmt, hp, hfail, hopen]

/-- Witness for C2: Scenario C — Cici's open order with the failing
strategy injected; the hypotheses of `run_checkout_failure_contract` hold
and so does its conclusion. -/
theorem run_checkout_failure_contract_witness :
    (checkout_fail.run_checkout (Order.new "Cici" 250000)).order =
      Order.new "Cici" 250000 ∧
    (checkout_fail.run_checkout (Order.new "Cici" 250000)).order.status = "open" ∧
    sendCalls (checkout_fail.run_checkout (Order.new "Cici" 250000)).trace = [] ∧
    (checkout_fail.run_checkout (Order.new "Cici" 250000)).ret = false :=
  run_checkout_failure_contract checkout_fail (Order.new "Cici" 250000) rfl
    (fun _ => rfl) rfl

/-- C3: an order constructed without an explicit status starts at
`"open"`; under the strategy contract, `run_checkout` changes the status
only to `"paid"` and only when the payment call reported success; a
`"paid"` status never transitions back; and from the statuses `"open"` and
`"paid"` only those two statuses are reachable. -/
theorem order_status_invariant (n : String) (p : Rat)
    (svc : CheckoutService) (o : Order)
    (hp : ∀ x, (svc.payment_processor.process x).order = x)
    (hn : ∀ x, (svc.notifier.send x).order = x) :
    (Order.new n p).status = "open" ∧
    ((svc.run_checkout o).order.status ≠ o.status →
      (svc.run_checkout o).order.status = "paid" ∧
      (svc.payment_processor.process o).ok = true) ∧
    (o.status = "paid" → (svc.run_checkout o).order.status = "paid") ∧
    (o.status = "open" ∨ o.status = "paid" →
      (svc.run_checkout o).order.status = "open" ∨
      (svc.run_checkout o).order.status = "paid") := by
  refine ⟨rfl, ?_, ?_, ?_⟩ <;>
    simp only [CheckoutService.run_checkout, passStmt] <;>
    rcases hok : (svc.payment_processor.process o).ok with _ | _ <;>
    simp [hp, hn, hok]

/-- Witness for C3: the invariant instantiated on the credit-card
coordinator and Andi's order, all hypotheses discharged. -/
theorem order_status_invariant_witness :
    (Order.new "Andi" 500000).status = "open" ∧
    ((checkout_cc.run_checkout andi_order).order.status ≠ andi_order.status →
      (checkout_cc.run_checkout andi_order).order.status = "paid" ∧
      (checkout_cc.payment_processor.process andi_order).ok = true) ∧
    (andi_order.status = "paid" →
      (checkout_cc.run_checkout andi_order).order.status = "paid") ∧
    (andi_order.status = "open" ∨ andi_order.status = "paid" →
      (checkout_cc.run_checkout andi_order).order.status = "open" ∨
      (checkout_cc.run_checkout andi_order).order.status = "paid") :=
  order_status_invariant "Andi" 500000 checkout_cc andi_order
    (fun _ => rfl) (fun _ => rfl)

/-- C4: `run_checkout` checks no precondition on the order's status: for
every order — whatever its status, `"paid"` included — the payment
strategy's `process` is invoked exactly once with that order, and if it
reports success the notifier's `send` is re-invoked with the order now
`"paid"`, the status is set to `"paid"`, and `true` is returned; no guard
rejects a non-`"open"` order. -/
theorem run_checkout_no_precondition_guard (svc : CheckoutService) (o : Order)
    (hp : ∀ x, (svc.payment_processor.process x).order = x)
    (hn : ∀ x, (svc.notifier.send x).order = x) :
    processCalls (svc.run_checkout o).trace = [o] ∧
    ((svc.payment_processor.process o).ok = true →
      (svc.run_checkout o).ret = true ∧
      (svc.run_checkout o).order.status = "paid" ∧
      sendCalls (svc.run_checkout o).trace = [{ o with status := "paid" }]) := by
  simp only [CheckoutService.run_checkout, passStmt]
  rcases hok : (svc.payment_processor.process o).ok with _ | _ <;>
    simp [hp, hn, hok]

/-- Witness for C4: the credit-card coordinator applied to Andi's order
with status already `"paid"`: `process` is still invoked, `send` is
re-invoked, the result is `true`. -/
theorem run_checkout_no_precondition_guard_witness :
    processCalls
        (checkout_cc.run_checkout { andi_order with status := "paid" }).trace =
      [{ andi_order with status := "paid" }] ∧
    ((checkout_cc.payment_processor.process
        { andi_order with status := "paid" }).ok = true →
      (checkout_cc.run_checkout { andi_order with status := "paid" }).ret = true ∧
      (checkout_cc.run_checkout
          { andi_order with status := "paid" }).order.status = "paid" ∧
      sendCalls
          (checkout_cc.run_checkout { andi_order with status := "paid" }).trace =
        [{ andi_order with status := "paid" }]) :=
  run_checkout_no_precondition_guard checkout_cc { andi_order with status := "paid" }
    (fun _ => rfl) (fun _ => rfl)

/-- C5: under the strategy contract, `run_checkout` mutates at most the
order's status — `customer_name` and `total_price` are preserved, on
failure the order is exactly unchanged, on success it is exactly the input
with status `"paid"` (one mutation, success path only) — and the
coordinator's own stored references come out unchanged, so successive
calls are independent. -/
theorem run_checkout_frame (svc : CheckoutService) (o : Order)
    (hp : ∀ x, (svc.payment_processor.process x).order = x)
    (hn : ∀ x, (svc.notifier.send x).order = x) :
    (svc.run_checkout o).order.customer_name = o.customer_name ∧
    (svc.run_checkout o).order.total_price = o.total_price ∧
    ((svc.run_checkout o).ret = false → (svc.run_checkout o).order = o) ∧
    ((svc.run_checkout o).ret = true →
      (svc.run_checkout o).order = { o with status := "paid" }) ∧
    (svc.run_checkout o).svc = svc := by
  simp only [CheckoutService.run_checkout, passStmt]
  rcases hok : (svc.payment_processor.process o).ok with _ | _ <;>
    simp [hp, hn, hok]

/-- Witness for C5: the frame property instantiated on the QRIS
coordinator and Budi's order. -/
theorem run_checkout_frame_witness :
    (checkout_qris.run_checkout budi_order).order.customer_name =
      budi_order.customer_name ∧
    (checkout_qris.run_checkout budi_order).order.total_price =
      budi_order.total_price ∧
    ((checkout_qris.run_checkout budi_order).ret = false →
      (checkout_qris.run_checkout budi_order).order = budi_order) ∧
    ((checkout_qris.run_checkout budi_order).ret = true →
      (checkout_qris.run_checkout budi_order).order =
        { budi_order with status := "paid" }) ∧
    (checkout_qris.run_checkout budi_order).svc = checkout_qris :=
  run_checkout_frame checkout_qris budi_order (fun _ => rfl) (fun _ => rfl)

/-- C6: whenever `run_checkout` invokes the notifier's `send`, the order
passed to it already has status `"paid"`: the coordinator mutates the
status strictly before delegating the notification. -/
theorem send_only_after_paid (svc : CheckoutService) (o o' : Order)
    (h : Event.sendCall o' ∈ (svc.run_checkout o).trace) :
    o'.status = "paid" := by
  simp only [CheckoutService.run_checkout, passStmt] at h
  rcases hok : (svc.payment_processor.process o).ok with _ | _ <;>
    simp [hok] at h
  subst h
  rfl

/-- Witness for C6: in the credit-card run on Andi's order, a `send`
invocation with the paid order occurs in the trace, and
`send_only_after_paid` applies to it. -/
theorem send_only_after_paid_witness :
    ({ andi_order with status := "paid" } : Order).status = "paid" :=
  send_only_after_paid checkout_cc andi_order { andi_order with status := "paid" }
    (by simp [CheckoutService.run_checkout, passStmt, checkout_cc, cc_processor,
      CreditCardProcessor.process, email_service, EmailNotifier.send])

/-- C7: both in-scope payment processors return `true` from `process` for
every order, and both demonstration scenarios — Andi's order through the
credit-card coordinator, Budi's order through the QRIS coordinator —
return `true`, leave the order `"paid"`, and send exactly one
notification. -/
theorem processors_always_succeed_and_scenarios (o : Order) :
    (CreditCardProcessor.process o).ok = true ∧
    (QrisProcessor.process o).ok = true ∧
    (checkout_cc.run_checkout andi_order).ret = true ∧
    (checkout_cc.run_checkout andi_order).order.status = "paid" ∧
    (sendCalls (checkout_cc.run_checkout andi_order).trace).length = 1 ∧
    (checkout_qris.run_checkout budi_order).ret = true ∧
    (checkout_qris.run_checkout budi_order).order.status = "paid" ∧
    (sendCalls (checkout_qris.run_checkout budi_order).trace).length = 1 := by
  refine ⟨rfl, rfl, ?_, ?_, ?_, ?_, ?_, ?_⟩ <;> rfl

/-- C8: neither concrete payment processor mutates the order: both
`CreditCardProcessor.process` and `QrisProcessor.process` leave every
field of the order exactly as received. -/
theorem concrete_processors_do_not_mutate (o : Order) :
    (CreditCardProcessor.process o).order = o ∧
    (QrisProcessor.process o).order = o :=
  ⟨rfl, rfl⟩

/-- C9: the dead `pass` statement at the start of `run_checkout` is inert:
it leaves all state unchanged, and `run_checkout` is observably equal —
same coordinator, final order, return value and full event trace — to the
same method with the statement removed. -/
theorem dead_pass_inert (svc : CheckoutService) (o : Order) :
    passStmt o = o ∧
    svc.run_checkout o = svc.run_checkout_no_pass o :=
  ⟨rfl, rfl⟩

/-- C10: `EmailNotifier.send` does not mutate the order — it only reads
`customer_name` for its log line and returns nothing meaningful — so in
particular an order handed over with status `"paid"` still has status
`"paid"` afterwards. -/
theorem email_notifier_does_not_mutate (o : Order) :
    (EmailNotifier.send o).order = o ∧
    (EmailNotifier.send { o with status := "paid" }).order.status = "paid" :=
  ⟨rfl, rfl⟩

end CheckoutSystem
